import Mathlib

/-!
Shallow embedding of `src/Vitis/common/src/pipe.c` (rpi-camera-fmc).

The file under verification is board-support glue: `pipe_init` sequences
vendor driver initialization calls (GPIO, I2C, camera, frame buffer
write/read, demosaic, gamma LUT, video processing subsystem) and
`pipe_start_camera` starts streaming.  Vendor driver calls are modelled by
an environment `Env` recording, for each fallible call, the status code it
returns, together with the values the vendor lookup functions produce.
Each driver call made by `pipe.c` is recorded as an `Event` in a trace, in
program order, carrying exactly the arguments that originate in `pipe.c`
itself.
-/

namespace RpiCameraFmc

/-- Xilinx status code `XST_SUCCESS` from `xstatus.h` (0L). -/
def XST_SUCCESS : Int := 0

/-- Xilinx status code `XST_FAILURE` from `xstatus.h` (1L). -/
def XST_FAILURE : Int := 1

/-- Bitwise complement on a 32-bit unsigned value, as `~x` computes in C
on a `u32` argument (the GPIO direction register is 32 bits wide). -/
def u32_not (x : Nat) : Nat := (2 ^ 32 - 1) - x % 2 ^ 32

/-- Modelled from the spec: `config.h` is not part of the provided
sources; the spec only says the stream parameters are "fixed".  The
constants it defines (`GPIO_CAM_IO0_MASK`, `GPIO_CAM_IO1_MASK`,
`VMODE_WIDTH`, `VMODE_HEIGHT`, `VMODE_FRAMERATE`, `VPROC_WIDTH_OUT`,
`VPROC_HEIGHT_OUT`, `VPROC_FRAMERATE_OUT`, `COLOR_FORMAT_ID`, `GAMMA`,
`GAMMA_TABLE_SIZE`) are therefore parameters of the embedding.  The field
`gammaValue i` stands for the C expression
`pow((i / (double)GAMMA_TABLE_SIZE), GAMMA) * (float)GAMMA_TABLE_SIZE`
of `pipe.c` line 106: floating-point arithmetic does not translate to the
embedding, so that double-precision computation is abstracted into a
function of `i` (it depends on nothing else); the `uint16_t` conversion
applied to it is kept explicit in `pipe_init` as `% 65536`. -/
structure Config where
  GPIO_CAM_IO0_MASK : Nat
  GPIO_CAM_IO1_MASK : Nat
  VMODE_WIDTH : Nat
  VMODE_HEIGHT : Nat
  VMODE_FRAMERATE : Nat
  VPROC_WIDTH_OUT : Nat
  VPROC_HEIGHT_OUT : Nat
  VPROC_FRAMERATE_OUT : Nat
  COLOR_FORMAT_ID : Nat
  GAMMA_TABLE_SIZE : Nat
  gammaValue : Nat → Nat

/-- Outcomes of the vendor driver calls that `pipe.c` makes: for each
fallible call, the status it returns on this run; plus the values the
vendor query functions return (`rpi_cam_bayer_phase`, the gamma LUT base
address established by `XV_gamma_lut_Initialize`, the video-mode lookup
tables, and the `ColorDepth`/`PixPerClock` fields of the video processing
subsystem configuration).  `demosaicInitStatus` is the value
`XV_demosaic_Initialize` returns (pipe.c line 86 discards it) and
`vprocSetSubsystemStatus` is the value `XVprocSs_SetSubsystemConfig`
returns (pipe.c line 157 stores it in `Status` and never reads it). -/
structure Env where
  gpioInitStatus : Int
  iicInitStatus : Int
  camInitStatus : Int
  frmbufWrInitStatus : Int
  frmbufRdInitStatus : Int
  demosaicInitStatus : Int
  gammaLutInitStatus : Int
  vprocLookupOk : Bool
  vprocCfgInitStatus : Int
  vprocSetSubsystemStatus : Int
  camConfigStatus : Int
  frmbufStartStatus : Int
  bayerPhase : Nat
  gammaBaseAddress : Nat
  vprocColorDepth : Nat
  vprocPixPerClock : Nat
  getVideoModeId : Nat → Nat → Nat → Bool → Nat
  getTimingInfo : Nat → Nat
  getFrameRate : Nat → Nat
  interlacedOf : Nat → Bool

/-- The fields of the `XVidC_VideoStream` structure that `pipe_init`
fills in before calling `XVprocSs_SetVidStreamIn`/`Out` (pipe.c lines
133-141 and 145-153). -/
structure StreamParams where
  vmId : Nat
  timing : Nat
  colorFormatId : Nat
  colorDepth : Nat
  pixPerClk : Nat
  frameRate : Nat
  interlaced : Bool
deriving DecidableEq, Repr

/-- One vendor driver call made by `pipe.c`, with the arguments that
originate in `pipe.c` itself (arguments that are mere pointers to the
own sub-structures of the pipe are omitted). -/
inductive Event where
  | gpioInitialize
  | gpioSetDataDirection (channel : Nat) (dirMask : Nat)
  | gpioDiscreteWrite (channel : Nat) (mask : Nat)
  | iicAxiInit
  | rpiCamInit
  | frmbufWrInit
  | frmbufRdInit
  | demosaicInitialize
  | demosaicSetWidth (w : Nat)
  | demosaicSetHeight (h : Nat)
  | demosaicSetBayerPhase (p : Nat)
  | demosaicEnableAutoRestart
  | demosaicStart
  | gammaLutInitialize
  | gammaLutSetWidth (w : Nat)
  | gammaLutSetHeight (h : Nat)
  | gammaLutSetVideoFormat (f : Nat)
  | out16 (addr : Nat) (value : Nat)
  | gammaLutStart
  | gammaLutEnableAutoRestart
  | vprocLookupConfig
  | vprocLogReset
  | vprocCfgInitialize
  | setVidStreamIn (s : StreamParams)
  | setVidStreamOut (s : StreamParams)
  | setSubsystemConfig
  | rpiCamConfig
  | frmbufStart
deriving DecidableEq, Repr

/-- The state of the `VideoPipe` structure that `pipe.c` itself reads or
writes: only the `IsConnected` field. -/
structure VideoPipe where
  isConnected : Bool
deriving DecidableEq, Repr

/-- Result of `pipe_init`: the returned status, the pipe state after the
call, and the trace of driver calls performed. -/
structure InitResult where
  status : Int
  pipe : VideoPipe
  trace : List Event
deriving DecidableEq, Repr

/-- Result of `pipe_start_camera`: returned status and trace. -/
structure StartResult where
  status : Int
  trace : List Event
deriving DecidableEq, Repr

/-- Construction of the `XVidC_VideoStream` value in pipe.c lines 133-141
(and identically 145-153): `resId = XVidC_GetVideoModeId(w,h,fr,FALSE)`,
`TimingPtr = XVidC_GetTimingInfo(resId)`, then the seven field writes. -/
def mkStream (e : Env) (w h fr cfid : Nat) : StreamParams :=
  let resId := e.getVideoModeId w h fr false
  { vmId := resId
    timing := e.getTimingInfo resId
    colorFormatId := cfid
    colorDepth := e.vprocColorDepth
    pixPerClk := e.vprocPixPerClock
    frameRate := e.getFrameRate resId
    interlaced := e.interlacedOf resId }

/-- The `Xil_Out16` writes of the gamma-table loop, pipe.c lines 104-110:
for each `i` below `GAMMA_TABLE_SIZE`, the same `uint16_t value` is
written at `BaseAddress + 0x800 + i*2`, `BaseAddress + 0x1000 + i*2` and
`BaseAddress + 0x1800 + i*2`. -/
def gammaTableWrites (cfg : Config) (base : Nat) : List Event :=
  (List.range cfg.GAMMA_TABLE_SIZE).flatMap fun i =>
    let v := cfg.gammaValue i % 65536
    [Event.out16 (base + 0x800 + i * 2) v,
     Event.out16 (base + 0x1000 + i * 2) v,
     Event.out16 (base + 0x1800 + i * 2) v]

/-- `pipe_init` from pipe.c lines 25-162, as a function of the vendor
driver outcomes.  Each `if` mirrors one status check of the C code; note
that the status of `XV_demosaic_Initialize` (line 86) is discarded and the
status of `XVprocSs_SetSubsystemConfig` (line 157) is assigned to `Status`
but never tested before `return(XST_SUCCESS)`. -/
def pipe_init (cfg : Config) (e : Env) (pipe : VideoPipe) : InitResult :=
  -- Status = XGpio_Initialize(&(pipe->Gpio), devids->Gpio);
  let t1 : List Event := [Event.gpioInitialize]
  if e.gpioInitStatus ≠ XST_SUCCESS then ⟨XST_FAILURE, pipe, t1⟩ else
  -- XGpio_SetDataDirection(..., 1, ~(GPIO_CAM_IO0_MASK+GPIO_CAM_IO1_MASK));
  -- XGpio_DiscreteWrite(..., 1, GPIO_CAM_IO0_MASK);
  -- Status = IicAxiInit(...);
  let t2 := t1 ++
    [Event.gpioSetDataDirection 1
       (u32_not (cfg.GPIO_CAM_IO0_MASK + cfg.GPIO_CAM_IO1_MASK)),
     Event.gpioDiscreteWrite 1 cfg.GPIO_CAM_IO0_MASK,
     Event.iicAxiInit]
  if e.iicInitStatus ≠ XST_SUCCESS then ⟨XST_FAILURE, pipe, t2⟩ else
  -- Status = rpi_cam_init(...); if(Status == XST_FAILURE) ...
  let t3 := t2 ++ [Event.rpiCamInit]
  if e.camInitStatus = XST_FAILURE then
    ⟨XST_FAILURE, { pipe with isConnected := false }, t3⟩ else
  -- Status = FrmbufWrInit(...);
  let t4 := t3 ++ [Event.frmbufWrInit]
  if e.frmbufWrInitStatus ≠ XST_SUCCESS then ⟨XST_FAILURE, pipe, t4⟩ else
  -- Status = FrmbufRdInit(...);
  let t5 := t4 ++ [Event.frmbufRdInit]
  if e.frmbufRdInitStatus ≠ XST_SUCCESS then ⟨XST_FAILURE, pipe, t5⟩ else
  -- XV_demosaic_Initialize(...) -- return value discarded, no check --
  -- then the demosaic register writes, then
  -- Status = XV_gamma_lut_Initialize(...);
  let t6 := t5 ++
    [Event.demosaicInitialize,
     Event.demosaicSetWidth cfg.VMODE_WIDTH,
     Event.demosaicSetHeight cfg.VMODE_HEIGHT,
     Event.demosaicSetBayerPhase e.bayerPhase,
     Event.demosaicEnableAutoRestart,
     Event.demosaicStart,
     Event.gammaLutInitialize]
  if e.gammaLutInitStatus ≠ XST_SUCCESS then ⟨XST_FAILURE, pipe, t6⟩ else
  -- gamma LUT register writes, table loop, start; then
  -- VprocSsConfigPtr = XVprocSs_LookupConfig(devids->Vproc);
  let t7 := t6 ++
    [Event.gammaLutSetWidth cfg.VMODE_WIDTH,
     Event.gammaLutSetHeight cfg.VMODE_HEIGHT,
     Event.gammaLutSetVideoFormat 0] ++
    gammaTableWrites cfg e.gammaBaseAddress ++
    [Event.gammaLutStart,
     Event.gammaLutEnableAutoRestart,
     Event.vprocLookupConfig]
  if ¬ e.vprocLookupOk then ⟨XST_FAILURE, pipe, t7⟩ else
  -- XVprocSs_LogReset(...); Status = XVprocSs_CfgInitialize(...);
  let t8 := t7 ++ [Event.vprocLogReset, Event.vprocCfgInitialize]
  if e.vprocCfgInitStatus ≠ XST_SUCCESS then ⟨XST_FAILURE, pipe, t8⟩ else
  -- input stream, output stream, SetSubsystemConfig (status ignored),
  -- pipe->IsConnected = TRUE; return(XST_SUCCESS);
  let sIn := mkStream e cfg.VMODE_WIDTH cfg.VMODE_HEIGHT
               cfg.VMODE_FRAMERATE cfg.COLOR_FORMAT_ID
  let sOut := mkStream e cfg.VPROC_WIDTH_OUT cfg.VPROC_HEIGHT_OUT
                cfg.VPROC_FRAMERATE_OUT cfg.COLOR_FORMAT_ID
  let t9 := t8 ++
    [Event.setVidStreamIn sIn, Event.setVidStreamOut sOut,
     Event.setSubsystemConfig]
  ⟨XST_SUCCESS, { pipe with isConnected := true }, t9⟩

/-- `pipe_start_camera` from pipe.c lines 164-173:
`Status = rpi_cam_config(&(pipe->Camera));` is immediately overwritten by
`Status = FrmbufStart(&(pipe->Frmbuf));` and the latter is returned. -/
def pipe_start_camera (e : Env) : StartResult :=
  ⟨e.frmbufStartStatus, [Event.rpiCamConfig, Event.frmbufStart]⟩

/-- Every status check that `pipe_init` actually performs passes (the
statuses of `XV_demosaic_Initialize` and `XVprocSs_SetSubsystemConfig`
are not among them: pipe.c never tests them). -/
def stepsChecked (e : Env) : Prop :=
  e.gpioInitStatus = XST_SUCCESS ∧ e.iicInitStatus = XST_SUCCESS ∧
  e.camInitStatus ≠ XST_FAILURE ∧ e.frmbufWrInitStatus = XST_SUCCESS ∧
  e.frmbufRdInitStatus = XST_SUCCESS ∧ e.gammaLutInitStatus = XST_SUCCESS ∧
  e.vprocLookupOk = true ∧ e.vprocCfgInitStatus = XST_SUCCESS

instance (e : Env) : Decidable (stepsChecked e) := by
  unfold stepsChecked
  infer_instance

/-- Every initialization step of `pipe_init` succeeds, including the two
whose status pipe.c discards. -/
def allStepsSucceed (e : Env) : Prop :=
  e.gpioInitStatus = XST_SUCCESS ∧ e.iicInitStatus = XST_SUCCESS ∧
  e.camInitStatus = XST_SUCCESS ∧ e.frmbufWrInitStatus = XST_SUCCESS ∧
  e.frmbufRdInitStatus = XST_SUCCESS ∧
  e.demosaicInitStatus = XST_SUCCESS ∧
  e.gammaLutInitStatus = XST_SUCCESS ∧
  e.vprocLookupOk = true ∧ e.vprocCfgInitStatus = XST_SUCCESS ∧
  e.vprocSetSubsystemStatus = XST_SUCCESS

instance (e : Env) : Decidable (allStepsSucceed e) := by
  unfold allStepsSucceed
  infer_instance

/-- The steps of `pipe_init` up to and including the gamma-table loop have
been reached: all status checks before the loop pass. -/
def gammaStageReached (e : Env) : Prop :=
  e.gpioInitStatus = XST_SUCCESS ∧ e.iicInitStatus = XST_SUCCESS ∧
  e.camInitStatus ≠ XST_FAILURE ∧ e.frmbufWrInitStatus = XST_SUCCESS ∧
  e.frmbufRdInitStatus = XST_SUCCESS ∧ e.gammaLutInitStatus = XST_SUCCESS

instance (e : Env) : Decidable (gammaStageReached e) := by
  unfold gammaStageReached
  infer_instance

/-- Marks the eight initialization entry-point calls of the pipeline
stages (per the spec: "GPIO, I2C, camera, frame buffers, demosaic, gamma
LUT, and the video processing subsystem"). -/
def isStageInit : Event → Bool
  | .gpioInitialize => true
  | .iicAxiInit => true
  | .rpiCamInit => true
  | .frmbufWrInit => true
  | .frmbufRdInit => true
  | .demosaicInitialize => true
  | .gammaLutInitialize => true
  | .vprocCfgInitialize => true
  | _ => false

/-! Concrete sample instantiations, used by witnesses and
counterexamples. -/

/-- A sample configuration (the claims hold for every configuration; this
one instantiates them). -/
def cfg0 : Config where
  GPIO_CAM_IO0_MASK := 1
  GPIO_CAM_IO1_MASK := 2
  VMODE_WIDTH := 1920
  VMODE_HEIGHT := 1080
  VMODE_FRAMERATE := 30
  VPROC_WIDTH_OUT := 1280
  VPROC_HEIGHT_OUT := 720
  VPROC_FRAMERATE_OUT := 60
  COLOR_FORMAT_ID := 3
  GAMMA_TABLE_SIZE := 2
  gammaValue := fun i => 100 + i

/-- Sample environment in which every vendor call succeeds. -/
def envOk : Env where
  gpioInitStatus := 0
  iicInitStatus := 0
  camInitStatus := 0
  frmbufWrInitStatus := 0
  frmbufRdInitStatus := 0
  demosaicInitStatus := 0
  gammaLutInitStatus := 0
  vprocLookupOk := true
  vprocCfgInitStatus := 0
  vprocSetSubsystemStatus := 0
  camConfigStatus := 0
  frmbufStartStatus := 0
  bayerPhase := 3
  gammaBaseAddress := 0x10000
  vprocColorDepth := 10
  vprocPixPerClock := 2
  getVideoModeId := fun _ _ _ _ => 5
  getTimingInfo := fun n => n + 100
  getFrameRate := fun n => n + 7
  interlacedOf := fun _ => false

/-- Environment in which `XV_demosaic_Initialize` reports failure and
everything else succeeds. -/
def envDemosaicFail : Env := { envOk with demosaicInitStatus := XST_FAILURE }

/-- Environment in which `XVprocSs_SetSubsystemConfig` reports failure and
everything else succeeds. -/
def envSubsysFail : Env := { envOk with vprocSetSubsystemStatus := XST_FAILURE }

/-- Environment in which `rpi_cam_config` reports failure and everything
else succeeds. -/
def envCamCfgFail : Env := { envOk with camConfigStatus := XST_FAILURE }

/-- Environment in which `IicAxiInit` reports failure. -/
def envIicFail : Env := { envOk with iicInitStatus := XST_FAILURE }

/-- Environment in which `XGpio_Initialize` reports failure. -/
def envGpioFail : Env := { envOk with gpioInitStatus := XST_FAILURE }

/-- A pipe whose `IsConnected` field starts out false. -/
def pipe0 : VideoPipe := ⟨false⟩

/-- A pipe whose `IsConnected` field starts out true. -/
def pipeT : VideoPipe := ⟨true⟩

/-! Trace prefixes: the sequence of driver calls `pipe_init` has made when
it reaches each of its status checks.  Each matches the corresponding
`let`-bound trace inside `pipe_init` definitionally. -/

/-- Calls made when the `XGpio_Initialize` check is evaluated. -/
def traceGpio : List Event := [Event.gpioInitialize]

/-- Calls made when the `IicAxiInit` check is evaluated. -/
def traceIic (cfg : Config) : List Event :=
  traceGpio ++
    [Event.gpioSetDataDirection 1
       (u32_not (cfg.GPIO_CAM_IO0_MASK + cfg.GPIO_CAM_IO1_MASK)),
     Event.gpioDiscreteWrite 1 cfg.GPIO_CAM_IO0_MASK,
     Event.iicAxiInit]

/-- Calls made when the `rpi_cam_init` check is evaluated. -/
def traceCam (cfg : Config) : List Event :=
  traceIic cfg ++ [Event.rpiCamInit]

/-- Calls made when the `FrmbufWrInit` check is evaluated. -/
def traceFrmbufWr (cfg : Config) : List Event :=
  traceCam cfg ++ [Event.frmbufWrInit]

/-- Calls made when the `FrmbufRdInit` check is evaluated. -/
def traceFrmbufRd (cfg : Config) : List Event :=
  traceFrmbufWr cfg ++ [Event.frmbufRdInit]

/-- Calls made when the `XV_gamma_lut_Initialize` check is evaluated (the
demosaic block precedes it, with no check of its own). -/
def traceGammaInit (cfg : Config) (e : Env) : List Event :=
  traceFrmbufRd cfg ++
    [Event.demosaicInitialize,
     Event.demosaicSetWidth cfg.VMODE_WIDTH,
     Event.demosaicSetHeight cfg.VMODE_HEIGHT,
     Event.demosaicSetBayerPhase e.bayerPhase,
     Event.demosaicEnableAutoRestart,
     Event.demosaicStart,
     Event.gammaLutInitialize]

/-- Calls made when the `XVprocSs_LookupConfig` null check is evaluated. -/
def traceVprocLookup (cfg : Config) (e : Env) : List Event :=
  traceGammaInit cfg e ++
    [Event.gammaLutSetWidth cfg.VMODE_WIDTH,
     Event.gammaLutSetHeight cfg.VMODE_HEIGHT,
     Event.gammaLutSetVideoFormat 0] ++
    gammaTableWrites cfg e.gammaBaseAddress ++
    [Event.gammaLutStart,
     Event.gammaLutEnableAutoRestart,
     Event.vprocLookupConfig]

/-- Calls made when the `XVprocSs_CfgInitialize` check is evaluated. -/
def traceVprocInit (cfg : Config) (e : Env) : List Event :=
  traceVprocLookup cfg e ++ [Event.vprocLogReset, Event.vprocCfgInitialize]

/-- The complete trace of a fully successful `pipe_init` run. -/
def fullTrace (cfg : Config) (e : Env) : List Event :=
  traceVprocInit cfg e ++
    [Event.setVidStreamIn
       (mkStream e cfg.VMODE_WIDTH cfg.VMODE_HEIGHT
          cfg.VMODE_FRAMERATE cfg.COLOR_FORMAT_ID),
     Event.setVidStreamOut
       (mkStream e cfg.VPROC_WIDTH_OUT cfg.VPROC_HEIGHT_OUT
          cfg.VPROC_FRAMERATE_OUT cfg.COLOR_FORMAT_ID),
     Event.setSubsystemConfig]

/-- When every status check passes, `pipe_init` returns `XST_SUCCESS`,
sets `IsConnected` to true, and performs exactly the calls of
`fullTrace`. -/
theorem pipe_init_success (cfg : Config) (e : Env) (p : VideoPipe)
    (h : stepsChecked e) :
    pipe_init cfg e p =
      ⟨XST_SUCCESS, { p with isConnected := true }, fullTrace cfg e⟩ := by
  obtain ⟨h1, h2, h3, h4, h5, h6, h7, h8⟩ := h
  simp only [pipe_init]
  rw [if_neg (by simp [h1]), if_neg (by simp [h2]), if_neg h3,
      if_neg (by simp [h4]), if_neg (by simp [h5]), if_neg (by simp [h6]),
      if_neg (by simp [h7]), if_neg (by simp [h8])]
  rfl

/-- No element of the gamma-table write loop is a stage-initialization
call: the loop consists of `Xil_Out16` register writes only. -/
theorem gammaTableWrites_filter_isStageInit (cfg : Config) (base : Nat) :
    (gammaTableWrites cfg base).filter isStageInit = [] := by
  refine List.filter_eq_nil_iff.mpr ?_
  intro a ha
  simp only [gammaTableWrites, List.mem_flatMap, List.mem_cons,
    List.not_mem_nil, or_false, List.mem_range] at ha
  obtain ⟨i, -, h⟩ := ha
  rcases h with h | h | h <;> subst h <;> simp [isStageInit]

/-- For every index below `GAMMA_TABLE_SIZE`, the gamma-table loop
contains the three writes of the value at that index to the three
per-channel tables. -/
theorem gammaTableWrites_mem (cfg : Config) (base : Nat) (i : Nat)
    (h : i < cfg.GAMMA_TABLE_SIZE) :
    Event.out16 (base + 0x800 + i * 2) (cfg.gammaValue i % 65536) ∈
      gammaTableWrites cfg base ∧
    Event.out16 (base + 0x1000 + i * 2) (cfg.gammaValue i % 65536) ∈
      gammaTableWrites cfg base ∧
    Event.out16 (base + 0x1800 + i * 2) (cfg.gammaValue i % 65536) ∈
      gammaTableWrites cfg base := by
  refine ⟨?_, ?_, ?_⟩ <;>
    · simp only [gammaTableWrites, List.mem_flatMap]
      exact ⟨i, List.mem_range.mpr h, by simp⟩

/-- Calls preceding the gamma-table write loop on any run that reaches
the loop. -/
def gammaLoopPre (cfg : Config) (e : Env) : List Event :=
  traceGammaInit cfg e ++
    [Event.gammaLutSetWidth cfg.VMODE_WIDTH,
     Event.gammaLutSetHeight cfg.VMODE_HEIGHT,
     Event.gammaLutSetVideoFormat 0]

/-- When the gamma stage is reached, the trace of `pipe_init` contains the
gamma-table write loop as a contiguous segment. -/
theorem pipe_init_gamma_segment (cfg : Config) (e : Env) (p : VideoPipe)
    (h : gammaStageReached e) :
    ∃ pre post, (pipe_init cfg e p).trace =
      pre ++ gammaTableWrites cfg e.gammaBaseAddress ++ post := by
  obtain ⟨h1, h2, h3, h4, h5, h6⟩ := h
  simp only [pipe_init]
  rw [if_neg (by simp [h1]), if_neg (by simp [h2]), if_neg h3,
      if_neg (by simp [h4]), if_neg (by simp [h5]), if_neg (by simp [h6])]
  by_cases h7 : e.vprocLookupOk
  · rw [if_neg (by simp [h7])]
    by_cases h8 : e.vprocCfgInitStatus = XST_SUCCESS
    · rw [if_neg (by simp [h8])]
      refine ⟨gammaLoopPre cfg e,
        [Event.gammaLutStart, Event.gammaLutEnableAutoRestart,
         Event.vprocLookupConfig, Event.vprocLogReset,
         Event.vprocCfgInitialize,
         Event.setVidStreamIn
           (mkStream e cfg.VMODE_WIDTH cfg.VMODE_HEIGHT
              cfg.VMODE_FRAMERATE cfg.COLOR_FORMAT_ID),
         Event.setVidStreamOut
           (mkStream e cfg.VPROC_WIDTH_OUT cfg.VPROC_HEIGHT_OUT
              cfg.VPROC_FRAMERATE_OUT cfg.COLOR_FORMAT_ID),
         Event.setSubsystemConfig], ?_⟩
      simp [gammaLoopPre, traceGammaInit, traceFrmbufRd, traceFrmbufWr,
        traceCam, traceIic, traceGpio]
    · rw [if_pos (by simp [h8])]
      refine ⟨gammaLoopPre cfg e,
        [Event.gammaLutStart, Event.gammaLutEnableAutoRestart,
         Event.vprocLookupConfig, Event.vprocLogReset,
         Event.vprocCfgInitialize], ?_⟩
      simp [gammaLoopPre, traceGammaInit, traceFrmbufRd, traceFrmbufWr,
        traceCam, traceIic, traceGpio]
  · rw [if_pos (by simp [h7])]
    refine ⟨gammaLoopPre cfg e,
      [Event.gammaLutStart, Event.gammaLutEnableAutoRestart,
       Event.vprocLookupConfig], ?_⟩
    simp [gammaLoopPre, traceGammaInit, traceFrmbufRd, traceFrmbufWr,
      traceCam, traceIic, traceGpio]

/-- C3: `pipe_init` performs its initialization calls in exactly the order
GPIO, I2C, camera, frame buffer write, frame buffer read, demosaic, gamma
LUT, video processing subsystem, and when every step succeeds it returns
`XST_SUCCESS`. -/
theorem pipe_init_stage_order (cfg : Config) (e : Env) (p : VideoPipe)
    (h : allStepsSucceed e) :
    (pipe_init cfg e p).status = XST_SUCCESS ∧
    (pipe_init cfg e p).trace.filter isStageInit =
      [Event.gpioInitialize, Event.iicAxiInit, Event.rpiCamInit,
       Event.frmbufWrInit, Event.frmbufRdInit, Event.demosaicInitialize,
       Event.gammaLutInitialize, Event.vprocCfgInitialize] := by
  have hc : stepsChecked e := by
    obtain ⟨h1, h2, h3, h4, h5, -, h6, h7, h8, -⟩ := h
    exact ⟨h1, h2, by simp [h3, XST_SUCCESS, XST_FAILURE], h4, h5, h6, h7, h8⟩
  rw [pipe_init_success cfg e p hc]
  refine ⟨rfl, ?_⟩
  simp [fullTrace, traceVprocInit, traceVprocLookup, traceGammaInit,
    traceFrmbufRd, traceFrmbufWr, traceCam, traceIic, traceGpio,
    List.filter_append, gammaTableWrites_filter_isStageInit, isStageInit]

/-- C3 witness: instantiation at a concrete configuration and an
environment in which every step succeeds. -/
theorem pipe_init_stage_order_witness :
    allStepsSucceed envOk ∧
    ((pipe_init cfg0 envOk pipe0).status = XST_SUCCESS ∧
     (pipe_init cfg0 envOk pipe0).trace.filter isStageInit =
       [Event.gpioInitialize, Event.iicAxiInit, Event.rpiCamInit,
        Event.frmbufWrInit, Event.frmbufRdInit, Event.demosaicInitialize,
        Event.gammaLutInitialize, Event.vprocCfgInitialize]) :=
  ⟨by decide, pipe_init_stage_order cfg0 envOk pipe0 (by decide)⟩

/-- C4: `pipe_start_camera` starts sensor streaming (`rpi_cam_config`)
first and the frame-buffer DMA (`FrmbufStart`) second, in that order, on
every call. -/
theorem pipe_start_camera_order (e : Env) :
    (pipe_start_camera e).trace = [Event.rpiCamConfig, Event.frmbufStart] :=
  rfl

/-- C5: on a fully checked-successful run, `pipe_init` configures the
video processing subsystem input stream from the mode lookup
`XVidC_GetVideoModeId(VMODE_WIDTH, VMODE_HEIGHT, VMODE_FRAMERATE, FALSE)`
with color format `COLOR_FORMAT_ID`, then the output stream from
`XVidC_GetVideoModeId(VPROC_WIDTH_OUT, VPROC_HEIGHT_OUT,
VPROC_FRAMERATE_OUT, FALSE)` with the same color format, input before
output (they are the last calls before `XVprocSs_SetSubsystemConfig`). -/
theorem pipe_init_stream_params (cfg : Config) (e : Env) (p : VideoPipe)
    (h : stepsChecked e) :
    (∃ pre, (pipe_init cfg e p).trace =
       pre ++
         [Event.setVidStreamIn
            (mkStream e cfg.VMODE_WIDTH cfg.VMODE_HEIGHT
               cfg.VMODE_FRAMERATE cfg.COLOR_FORMAT_ID),
          Event.setVidStreamOut
            (mkStream e cfg.VPROC_WIDTH_OUT cfg.VPROC_HEIGHT_OUT
               cfg.VPROC_FRAMERATE_OUT cfg.COLOR_FORMAT_ID),
          Event.setSubsystemConfig]) ∧
    (∀ w ht fr c,
       (mkStream e w ht fr c).vmId = e.getVideoModeId w ht fr false ∧
       (mkStream e w ht fr c).colorFormatId = c ∧
       (mkStream e w ht fr c).frameRate =
         e.getFrameRate (e.getVideoModeId w ht fr false) ∧
       (mkStream e w ht fr c).interlaced =
         e.interlacedOf (e.getVideoModeId w ht fr false)) := by
  refine ⟨⟨traceVprocInit cfg e, ?_⟩, fun w ht fr c => ⟨rfl, rfl, rfl, rfl⟩⟩
  rw [pipe_init_success cfg e p h]
  rfl

/-- C5 witness: instantiation at a concrete configuration and a fully
successful environment. -/
theorem pipe_init_stream_params_witness :
    stepsChecked envOk ∧
    ((∃ pre, (pipe_init cfg0 envOk pipe0).trace =
       pre ++
         [Event.setVidStreamIn
            (mkStream envOk cfg0.VMODE_WIDTH cfg0.VMODE_HEIGHT
               cfg0.VMODE_FRAMERATE cfg0.COLOR_FORMAT_ID),
          Event.setVidStreamOut
            (mkStream envOk cfg0.VPROC_WIDTH_OUT cfg0.VPROC_HEIGHT_OUT
               cfg0.VPROC_FRAMERATE_OUT cfg0.COLOR_FORMAT_ID),
          Event.setSubsystemConfig]) ∧
     (∀ w ht fr c,
       (mkStream envOk w ht fr c).vmId = envOk.getVideoModeId w ht fr false ∧
       (mkStream envOk w ht fr c).colorFormatId = c ∧
       (mkStream envOk w ht fr c).frameRate =
         envOk.getFrameRate (envOk.getVideoModeId w ht fr false) ∧
       (mkStream envOk w ht fr c).interlaced =
         envOk.interlacedOf (envOk.getVideoModeId w ht fr false))) :=
  ⟨by decide, pipe_init_stream_params cfg0 envOk pipe0 (by decide)⟩

/-- C6: on every run that reaches the gamma-table loop, for every index
`i` below `GAMMA_TABLE_SIZE` the same 16-bit gamma value (the abstracted
floating-point computation `pow(i / GAMMA_TABLE_SIZE, GAMMA) *
GAMMA_TABLE_SIZE` of pipe.c line 106, truncated to `uint16_t`) is written
to the three color-channel tables at `BaseAddress + 0x800 + 2*i`,
`BaseAddress + 0x1000 + 2*i` and `BaseAddress + 0x1800 + 2*i`. -/
theorem pipe_init_gamma_curve (cfg : Config) (e : Env) (p : VideoPipe)
    (h : gammaStageReached e) :
    ∀ i, i < cfg.GAMMA_TABLE_SIZE →
      Event.out16 (e.gammaBaseAddress + 0x800 + i * 2)
          (cfg.gammaValue i % 65536) ∈ (pipe_init cfg e p).trace ∧
      Event.out16 (e.gammaBaseAddress + 0x1000 + i * 2)
          (cfg.gammaValue i % 65536) ∈ (pipe_init cfg e p).trace ∧
      Event.out16 (e.gammaBaseAddress + 0x1800 + i * 2)
          (cfg.gammaValue i % 65536) ∈ (pipe_init cfg e p).trace := by
  intro i hi
  obtain ⟨pre, post, htr⟩ := pipe_init_gamma_segment cfg e p h
  obtain ⟨m1, m2, m3⟩ := gammaTableWrites_mem cfg e.gammaBaseAddress i hi
  rw [htr]
  exact ⟨List.mem_append_left post (List.mem_append_right pre m1),
         List.mem_append_left post (List.mem_append_right pre m2),
         List.mem_append_left post (List.mem_append_right pre m3)⟩

/-- C6 witness: instantiation at a concrete configuration with a
two-entry gamma table, at index 1. -/
theorem pipe_init_gamma_curve_witness :
    gammaStageReached envOk ∧ 1 < cfg0.GAMMA_TABLE_SIZE ∧
    (Event.out16 (envOk.gammaBaseAddress + 0x800 + 1 * 2)
        (cfg0.gammaValue 1 % 65536) ∈ (pipe_init cfg0 envOk pipe0).trace ∧
     Event.out16 (envOk.gammaBaseAddress + 0x1000 + 1 * 2)
        (cfg0.gammaValue 1 % 65536) ∈ (pipe_init cfg0 envOk pipe0).trace ∧
     Event.out16 (envOk.gammaBaseAddress + 0x1800 + 1 * 2)
        (cfg0.gammaValue 1 % 65536) ∈ (pipe_init cfg0 envOk pipe0).trace) :=
  ⟨by decide, by decide,
   pipe_init_gamma_curve cfg0 envOk pipe0 (by decide) 1 (by decide)⟩

/-- C1 counterexample: when `XV_demosaic_Initialize` reports failure and
every other call succeeds, `pipe_init` does not return `XST_FAILURE`: it
executes the subsequent gamma-LUT initialization and returns
`XST_SUCCESS`, because pipe.c line 86 discards the demosaic status. -/
theorem pipe_init_demosaic_failure_ignored :
    envDemosaicFail.demosaicInitStatus = XST_FAILURE ∧
    (pipe_init cfg0 envDemosaicFail pipe0).status = XST_SUCCESS ∧
    Event.gammaLutInitialize ∈ (pipe_init cfg0 envDemosaicFail pipe0).trace := by
  decide

/-- C1 amended: every initialization step whose status `pipe_init`
checks (GPIO, I2C, camera, frame buffer write, frame buffer read, gamma
LUT, video-processing-subsystem lookup and `CfgInitialize`) early-returns
`XST_FAILURE` on failure with no subsequent call executed; the statuses
of `XV_demosaic_Initialize` and of the final
`XVprocSs_SetSubsystemConfig` are never examined, so the result of
`pipe_init` does not depend on them at all. -/
theorem pipe_init_early_return_checked (cfg : Config) (e : Env)
    (p : VideoPipe) :
    (e.gpioInitStatus ≠ XST_SUCCESS →
       pipe_init cfg e p = ⟨XST_FAILURE, p, traceGpio⟩) ∧
    (e.gpioInitStatus = XST_SUCCESS → e.iicInitStatus ≠ XST_SUCCESS →
       pipe_init cfg e p = ⟨XST_FAILURE, p, traceIic cfg⟩) ∧
    (e.gpioInitStatus = XST_SUCCESS → e.iicInitStatus = XST_SUCCESS →
     e.camInitStatus = XST_FAILURE →
       pipe_init cfg e p =
         ⟨XST_FAILURE, { p with isConnected := false }, traceCam cfg⟩) ∧
    (e.gpioInitStatus = XST_SUCCESS → e.iicInitStatus = XST_SUCCESS →
     e.camInitStatus ≠ XST_FAILURE → e.frmbufWrInitStatus ≠ XST_SUCCESS →
       pipe_init cfg e p = ⟨XST_FAILURE, p, traceFrmbufWr cfg⟩) ∧
    (e.gpioInitStatus = XST_SUCCESS → e.iicInitStatus = XST_SUCCESS →
     e.camInitStatus ≠ XST_FAILURE → e.frmbufWrInitStatus = XST_SUCCESS →
     e.frmbufRdInitStatus ≠ XST_SUCCESS →
       pipe_init cfg e p = ⟨XST_FAILURE, p, traceFrmbufRd cfg⟩) ∧
    (e.gpioInitStatus = XST_SUCCESS → e.iicInitStatus = XST_SUCCESS →
     e.camInitStatus ≠ XST_FAILURE → e.frmbufWrInitStatus = XST_SUCCESS →
     e.frmbufRdInitStatus = XST_SUCCESS →
     e.gammaLutInitStatus ≠ XST_SUCCESS →
       pipe_init cfg e p = ⟨XST_FAILURE, p, traceGammaInit cfg e⟩) ∧
    (e.gpioInitStatus = XST_SUCCESS → e.iicInitStatus = XST_SUCCESS →
     e.camInitStatus ≠ XST_FAILURE → e.frmbufWrInitStatus = XST_SUCCESS →
     e.frmbufRdInitStatus = XST_SUCCESS →
     e.gammaLutInitStatus = XST_SUCCESS → e.vprocLookupOk = false →
       pipe_init cfg e p = ⟨XST_FAILURE, p, traceVprocLookup cfg e⟩) ∧
    (e.gpioInitStatus = XST_SUCCESS → e.iicInitStatus = XST_SUCCESS →
     e.camInitStatus ≠ XST_FAILURE → e.frmbufWrInitStatus = XST_SUCCESS →
     e.frmbufRdInitStatus = XST_SUCCESS →
     e.gammaLutInitStatus = XST_SUCCESS → e.vprocLookupOk = true →
     e.vprocCfgInitStatus ≠ XST_SUCCESS →
       pipe_init cfg e p = ⟨XST_FAILURE, p, traceVprocInit cfg e⟩) ∧
    (∀ d s,
       pipe_init cfg
         { e with demosaicInitStatus := d, vprocSetSubsystemStatus := s }
         p = pipe_init cfg e p) := by
  refine ⟨?_, ?_, ?_, ?_, ?_, ?_, ?_, ?_, fun d s => rfl⟩
  · intro h1
    simp only [pipe_init]
    rw [if_pos h1]
    rfl
  · intro h1 h2
    simp only [pipe_init]
    rw [if_neg (by simp [h1]), if_pos h2]
    rfl
  · intro h1 h2 h3
    simp only [pipe_init]
    rw [if_neg (by simp [h1]), if_neg (by simp [h2]), if_pos h3]
    rfl
  · intro h1 h2 h3 h4
    simp only [pipe_init]
    rw [if_neg (by simp [h1]), if_neg (by simp [h2]), if_neg h3, if_pos h4]
    rfl
  · intro h1 h2 h3 h4 h5
    simp only [pipe_init]
    rw [if_neg (by simp [h1]), if_neg (by simp [h2]), if_neg h3,
        if_neg (by simp [h4]), if_pos h5]
    rfl
  · intro h1 h2 h3 h4 h5 h6
    simp only [pipe_init]
    rw [if_neg (by simp [h1]), if_neg (by simp [h2]), if_neg h3,
        if_neg (by simp [h4]), if_neg (by simp [h5]), if_pos h6]
    rfl
  · intro h1 h2 h3 h4 h5 h6 h7
    simp only [pipe_init]
    rw [if_neg (by simp [h1]), if_neg (by simp [h2]), if_neg h3,
        if_neg (by simp [h4]), if_neg (by simp [h5]), if_neg (by simp [h6]),
        if_pos (by simp [h7])]
    rfl
  · intro h1 h2 h3 h4 h5 h6 h7 h8
    simp only [pipe_init]
    rw [if_neg (by simp [h1]), if_neg (by simp [h2]), if_neg h3,
        if_neg (by simp [h4]), if_neg (by simp [h5]), if_neg (by simp [h6]),
        if_neg (by simp [h7]), if_pos (by simp [h8])]
    rfl

/-- C1 amended witness: the I2C-failure conjunct instantiated at a
concrete environment. -/
theorem pipe_init_early_return_checked_witness :
    pipe_init cfg0 envIicFail pipe0 = ⟨XST_FAILURE, pipe0, traceIic cfg0⟩ :=
  (pipe_init_early_return_checked cfg0 envIicFail pipe0).2.1
    (by decide) (by decide)

/-- C2 counterexample: when `rpi_cam_config` reports failure and
`FrmbufStart` succeeds, `pipe_start_camera` does not early-return the
camera failure: it runs `FrmbufStart` and returns its status
(`XST_SUCCESS`), because pipe.c line 171 overwrites `Status`. -/
theorem pipe_start_camera_ignores_camera_status :
    envCamCfgFail.camConfigStatus = XST_FAILURE ∧
    (pipe_start_camera envCamCfgFail).status = XST_SUCCESS ∧
    Event.frmbufStart ∈ (pipe_start_camera envCamCfgFail).trace := by
  decide

/-- C2 amended: `pipe_start_camera` always executes both `rpi_cam_config`
and `FrmbufStart`, in that order, and always returns the status of
`FrmbufStart`; the status of `rpi_cam_config` is discarded. -/
theorem pipe_start_camera_returns_frmbuf_status (e : Env) :
    pipe_start_camera e =
      ⟨e.frmbufStartStatus, [Event.rpiCamConfig, Event.frmbufStart]⟩ :=
  rfl

/-- C7 counterexample: `XVprocSs_SetSubsystemConfig` reports failure yet
`pipe_init` returns `XST_SUCCESS`: a failing step that is not mapped to
`XST_FAILURE` (pipe.c line 157 assigns the status to `Status` and never
tests it). -/
theorem pipe_init_subsys_failure_not_mapped :
    envSubsysFail.vprocSetSubsystemStatus = XST_FAILURE ∧
    (pipe_init cfg0 envSubsysFail pipe0).status = XST_SUCCESS := by
  decide

/-- C7 amended: for every input, the return value of `pipe_init` is
either `XST_SUCCESS` or `XST_FAILURE` (vendor status codes are never
forwarded verbatim); but only the checked steps are mapped to
`XST_FAILURE` on failure: the demosaic-initialize and
`XVprocSs_SetSubsystemConfig` statuses are never examined. -/
theorem pipe_init_status_success_or_failure (cfg : Config) (e : Env)
    (p : VideoPipe) :
    (pipe_init cfg e p).status = XST_SUCCESS ∨
    (pipe_init cfg e p).status = XST_FAILURE := by
  simp only [pipe_init]
  split_ifs <;> simp

/-- The unique failure path of `pipe_init` that writes `IsConnected`:
GPIO and I2C initialization succeeded and `rpi_cam_init` returned
`XST_FAILURE` (pipe.c lines 63-67). -/
def camFailPath (e : Env) : Prop :=
  e.gpioInitStatus = XST_SUCCESS ∧ e.iicInitStatus = XST_SUCCESS ∧
  e.camInitStatus = XST_FAILURE

instance (e : Env) : Decidable (camFailPath e) := by
  unfold camFailPath
  infer_instance

set_option maxHeartbeats 2000000 in
/-- C8: `pipe_init` sets `IsConnected` to false exactly on the
camera-initialization failure path, to true exactly when it returns
`XST_SUCCESS` (all checked steps passed), and leaves it unchanged on
every other failure path; moreover a return of `XST_FAILURE` does not
imply `IsConnected` is false. -/
theorem pipe_init_isConnected_char :
    (∀ cfg e p,
       ((pipe_init cfg e p).pipe.isConnected =
          if camFailPath e then false
          else if stepsChecked e then true
          else p.isConnected) ∧
       ((pipe_init cfg e p).status = XST_SUCCESS ↔ stepsChecked e)) ∧
    (∃ cfg e p, (pipe_init cfg e p).status = XST_FAILURE ∧
       (pipe_init cfg e p).pipe.isConnected = true) := by
  constructor
  · intro cfg e p
    constructor
    · simp only [pipe_init, camFailPath, stepsChecked]
      split_ifs <;> simp_all [XST_SUCCESS, XST_FAILURE]
    · simp only [pipe_init, stepsChecked]
      split_ifs <;> simp_all [XST_SUCCESS, XST_FAILURE]
  · exact ⟨cfg0, envGpioFail, pipeT, by decide, by decide⟩

set_option maxHeartbeats 2000000 in
/-- C9: on every run, whenever `IicAxiInit` (and a fortiori
`rpi_cam_init`) is invoked, the GPIO data-direction write
`~(GPIO_CAM_IO0_MASK + GPIO_CAM_IO1_MASK)` and the camera-enable write of
`GPIO_CAM_IO0_MASK` have already been performed, strictly earlier in the
trace; and the direction write clears (makes outputs, per the code
comment `1=input, 0=output`) every bit set in the mask sum. -/
theorem pipe_init_power_before_camera (cfg : Config) (e : Env)
    (p : VideoPipe) :
    (Event.iicAxiInit ∈ (pipe_init cfg e p).trace →
       (pipe_init cfg e p).trace.take 4 = traceIic cfg) ∧
    (Event.rpiCamInit ∈ (pipe_init cfg e p).trace →
       (pipe_init cfg e p).trace.take 5 = traceCam cfg) ∧
    (∀ b, b < 32 →
       (cfg.GPIO_CAM_IO0_MASK + cfg.GPIO_CAM_IO1_MASK).testBit b = true →
       (u32_not (cfg.GPIO_CAM_IO0_MASK + cfg.GPIO_CAM_IO1_MASK)).testBit b
         = false) := by
  refine ⟨?_, ?_, ?_⟩
  · simp only [pipe_init]
    split_ifs
    all_goals intro hmem
    · exact absurd hmem (by simp)
    all_goals simp [traceIic, traceGpio]
  · simp only [pipe_init]
    split_ifs
    all_goals intro hmem
    · exact absurd hmem (by simp)
    · exact absurd hmem (by simp)
    all_goals simp [traceCam, traceIic, traceGpio]
  · intro b hb hbit
    unfold u32_not
    have hlt :
        (cfg.GPIO_CAM_IO0_MASK + cfg.GPIO_CAM_IO1_MASK) % 2 ^ 32 < 2 ^ 32 :=
      Nat.mod_lt _ (by norm_num)
    rw [show (2 : Nat) ^ 32 - 1 -
          (cfg.GPIO_CAM_IO0_MASK + cfg.GPIO_CAM_IO1_MASK) % 2 ^ 32 =
        2 ^ 32 -
          ((cfg.GPIO_CAM_IO0_MASK + cfg.GPIO_CAM_IO1_MASK) % 2 ^ 32 + 1) by
      omega]
    rw [Nat.testBit_two_pow_sub_succ hlt, Nat.testBit_mod_two_pow]
    simp [hb, hbit]

/-- C9 witness: instantiation at a concrete run that reaches the camera,
and at bit 0 of the sample masks. -/
theorem pipe_init_power_before_camera_witness :
    (pipe_init cfg0 envOk pipe0).trace.take 5 = traceCam cfg0 ∧
    (u32_not (cfg0.GPIO_CAM_IO0_MASK + cfg0.GPIO_CAM_IO1_MASK)).testBit 0
      = false :=
  ⟨(pipe_init_power_before_camera cfg0 envOk pipe0).2.1 (by decide),
   (pipe_init_power_before_camera cfg0 envOk pipe0).2.2 0 (by decide)
     (by decide)⟩

/-- C10: on a fully checked-successful run, the demosaic width/height
registers, the gamma-LUT width/height registers and the
video-processing-subsystem input stream all receive the same
`VMODE_WIDTH` and `VMODE_HEIGHT`, and the demosaic bayer-phase register
receives exactly the value `rpi_cam_bayer_phase` reports. -/
theorem pipe_init_consistent_dims (cfg : Config) (e : Env) (p : VideoPipe)
    (h : stepsChecked e) :
    Event.demosaicSetWidth cfg.VMODE_WIDTH ∈ (pipe_init cfg e p).trace ∧
    Event.demosaicSetHeight cfg.VMODE_HEIGHT ∈ (pipe_init cfg e p).trace ∧
    Event.gammaLutSetWidth cfg.VMODE_WIDTH ∈ (pipe_init cfg e p).trace ∧
    Event.gammaLutSetHeight cfg.VMODE_HEIGHT ∈ (pipe_init cfg e p).trace ∧
    Event.setVidStreamIn
        (mkStream e cfg.VMODE_WIDTH cfg.VMODE_HEIGHT cfg.VMODE_FRAMERATE
           cfg.COLOR_FORMAT_ID) ∈ (pipe_init cfg e p).trace ∧
    Event.demosaicSetBayerPhase e.bayerPhase ∈ (pipe_init cfg e p).trace := by
  rw [pipe_init_success cfg e p h]
  refine ⟨?_, ?_, ?_, ?_, ?_, ?_⟩ <;>
    simp [fullTrace, traceVprocInit, traceVprocLookup, traceGammaInit,
      traceFrmbufRd, traceFrmbufWr, traceCam, traceIic, traceGpio]

/-- C10 witness: instantiation at a concrete configuration and a fully
successful environment. -/
theorem pipe_init_consistent_dims_witness :
    stepsChecked envOk ∧
    (Event.demosaicSetWidth cfg0.VMODE_WIDTH ∈
       (pipe_init cfg0 envOk pipe0).trace ∧
     Event.demosaicSetHeight cfg0.VMODE_HEIGHT ∈
       (pipe_init cfg0 envOk pipe0).trace ∧
     Event.gammaLutSetWidth cfg0.VMODE_WIDTH ∈
       (pipe_init cfg0 envOk pipe0).trace ∧
     Event.gammaLutSetHeight cfg0.VMODE_HEIGHT ∈
       (pipe_init cfg0 envOk pipe0).trace ∧
     Event.setVidStreamIn
         (mkStream envOk cfg0.VMODE_WIDTH cfg0.VMODE_HEIGHT
            cfg0.VMODE_FRAMERATE cfg0.COLOR_FORMAT_ID) ∈
       (pipe_init cfg0 envOk pipe0).trace ∧
     Event.demosaicSetBayerPhase envOk.bayerPhase ∈
       (pipe_init cfg0 envOk pipe0).trace) :=
  ⟨by decide, pipe_init_consistent_dims cfg0 envOk pipe0 (by decide)⟩

end RpiCameraFmc
